import Mathlib

/-!
Verification of the content-creation orchestration core of
`content_creation_team.py` together with the fallback rendering in
`simple_streamlit_app.py` / `new_streamlit_app.py`.

The embedding models:
* the run parameters (`topic`, `audience`, `content_type`, `word_count`);
* Python's `str.format` with the four keyword arguments, as used on
  `writing_task.description` (named-field substitution; substituted values
  are not rescanned; an unknown field name or an unmatched single brace is
  an error, modelled as `none`);
* the three agents and their tool grants;
* the sequential crew execution (modelled from the spec, since the CrewAI
  library is an external collaborator), driven by an oracle `Behavior`
  giving each collaborator call's outcome;
* `create_content`, including its in-place mutation of
  `writing_task.description` and its broad `except` fallback;
* the simulated-content document the frontends render on the fallback path.
-/

set_option maxRecDepth 8000

/-- The run parameters supplied by the caller: `topic`, `audience`,
`content_type` and `word_count` of `ContentCreationTeam.create_content`. -/
structure RunParameters where
  topic : String
  audience : String
  contentType : String
  wordCountRange : String
  deriving DecidableEq, Repr

/-- The `\x7b` character. -/
def lbrace : Char := Char.ofNat 123

/-- The `\x7d` character. -/
def rbrace : Char := Char.ofNat 125

/-- Keyword lookup for `str.format(topic=..., audience=..., content_type=...,
word_count=...)` as called at line 166 of `content_creation_team.py`.
Any other field name raises `KeyError` in Python, modelled as `none`. -/
def fieldValue (p : RunParameters) (name : String) : Option String :=
  if name = "topic" then some p.topic
  else if name = "audience" then some p.audience
  else if name = "content_type" then some p.contentType
  else if name = "word_count" then some p.wordCountRange
  else none

/-- Scanner for Python `str.format` over a character list, with explicit fuel
(structural recursion; any fuel exceeding the list length is enough, since
every step consumes at least one character). Doubled braces are escapes,
a replacement field substitutes the keyword value without rescanning it,
and a lone closing brace or an unterminated field is an error (`none`),
exactly as `str.format` raises `ValueError`/`KeyError`. -/
def goFmt (p : RunParameters) : Nat → List Char → Option (List Char)
  | 0, _ => none
  | _ + 1, [] => some []
  | fuel + 1, c :: rest =>
    if c = lbrace then
      match rest with
      | [] => none
      | c2 :: rest2 =>
        if c2 = lbrace then (goFmt p fuel rest2).map (fun l => lbrace :: l)
        else
          match (c2 :: rest2).dropWhile (fun d => d != rbrace) with
          | [] => none
          | _ :: rest3 =>
            match fieldValue p (String.mk ((c2 :: rest2).takeWhile (fun d => d != rbrace))) with
            | none => none
            | some v => (goFmt p fuel rest3).map (fun l => v.data ++ l)
    else if c = rbrace then
      match rest with
      | [] => none
      | c2 :: rest2 =>
        if c2 = rbrace then (goFmt p fuel rest2).map (fun l => rbrace :: l)
        else none
    else (goFmt p fuel rest).map (fun l => c :: l)

/-- Rendering `s.format(topic=p.topic, audience=p.audience, content_type=p.contentType,
word_count=p.wordCountRange)`: `some` rendered string, or `none` when Python
would raise. -/
def formatDesc (s : String) (p : RunParameters) : Option String :=
  (goFmt p (s.data.length + 1) s.data).map String.mk

/-- The initial `writing_task.description` template, verbatim from
`ContentCreationTeam.setup_tasks` (lines 88-100 of
`content_creation_team.py`). -/
def initialWritingDesc : String :=
  "Create original, engaging content on the given topic. The content should be:\n            - Well-researched and informative\n            - Engaging and easy to read\n            - Structured with clear headings and sections\n            - Tailored to the target audience\n            - Original and plagiarism-free\n            \n            Topic: {topic}\n            Target Audience: {audience}\n            Content Type: {content_type}\n            Word Count: {word_count}\n            \n            Provide the complete content with proper formatting."

/-- One pipeline stage/agent: its role name and whether it was granted the
search tool (`tools=[SerperDevTool()]` in `setup_agents`). The long
goal/backstory prompt texts are outside the core (spec section 1 excludes
"the specific prompt text used to instruct each stage"). -/
structure AgentSpec where
  role : String
  usesSearch : Bool
  deriving DecidableEq, Repr

/-- Agent `writer_agent` (lines 44-55): role `Content Writer`, granted
`SerperDevTool`. -/
def writer_agent : AgentSpec := ⟨"Content Writer", true⟩

/-- Agent `editor_agent` (lines 58-68): role `Content Editor`, no tools. -/
def editor_agent : AgentSpec := ⟨"Content Editor", false⟩

/-- Agent `seo_agent` (lines 71-81): role `SEO Specialist`, granted
`SerperDevTool`. -/
def seo_agent : AgentSpec := ⟨"SEO Specialist", true⟩

/-- The ordered agent list of `setup_crew` (line 138):
`agents=[self.writer_agent, self.editor_agent, self.seo_agent]`, matching the
task order `[writing_task, editing_task, seo_task]` with
`Process.sequential`. -/
def crewAgents : List AgentSpec := [writer_agent, editor_agent, seo_agent]

/-- Oracle describing what the two external collaborators do on each call:
`completion n` is the outcome of the `n`-th LLM completion call and
`search n` the outcome of the `n`-th search-tool call (`some text` = the call
returns `text`; `none` = the call raises `CompletionError` / `SearchError`). -/
structure Behavior where
  completion : Nat → Option String
  search : Nat → Option String

/-- Observable trace of one `crew.kickoff()` execution: how many completion
and search calls were made, which stages ran to completion (role names in
order), the last completed stage's output text, and whether a collaborator
raised (aborting the remaining stages). -/
structure Trace where
  nComp : Nat
  nSearch : Nat
  completed : List String
  lastOutput : String
  failed : Bool
  deriving DecidableEq, Repr

/-- Modelled from the spec: one stage of the sequential crew process
(spec section 4.1). If a previous stage already failed, the stage does not
run. Otherwise, when the agent holds the search tool the search collaborator
is invoked first; a search failure aborts the stage (spec: "on SearchTool
failure, propagate the failure"). Then the completion collaborator is
invoked; on success its text becomes the stage output handed to the next
stage, on failure the stage aborts. -/
def stepStage (b : Behavior) (t : Trace) (ag : AgentSpec) : Trace :=
  if t.failed then t
  else if ag.usesSearch then
    match b.search t.nSearch with
    | none => { t with nSearch := t.nSearch + 1, failed := true }
    | some _ =>
      match b.completion t.nComp with
      | none => { t with nSearch := t.nSearch + 1, nComp := t.nComp + 1, failed := true }
      | some out =>
        { nComp := t.nComp + 1, nSearch := t.nSearch + 1,
          completed := t.completed ++ [ag.role], lastOutput := out, failed := false }
  else
    match b.completion t.nComp with
    | none => { t with nComp := t.nComp + 1, failed := true }
    | some out => { t with nComp := t.nComp + 1, completed := t.completed ++ [ag.role], lastOutput := out }

/-- Modelled from the spec: `self.crew.kickoff()` with `Process.sequential`
runs the three stages in crew order, each stage's output feeding the next,
and returns the final stage's output; any collaborator exception propagates
out of `kickoff` (and is then caught by `create_content`'s broad `except`). -/
def kickoff (b : Behavior) : Trace :=
  crewAgents.foldl (stepStage b) ⟨0, 0, [], "", false⟩

/-- The dictionary `create_content` returns: its `status`, `message`,
optional `result` (absent on the simulation path), `workflow` list (absent on
the success path, modelled as `[]`), the four echoed parameters, and
`apis_used`. -/
structure ContentDict where
  status : String
  message : String
  result : Option String
  workflow : List String
  topic : String
  audience : String
  content_type : String
  word_count : String
  apis_used : List String
  deriving DecidableEq, Repr

/-- The success dictionary of `create_content` (lines 188-197). -/
def successDict (p : RunParameters) (r : String) : ContentDict :=
  { status := "success"
    message := "Content created successfully!"
    result := some r
    workflow := []
    topic := p.topic
    audience := p.audience
    content_type := p.contentType
    word_count := p.wordCountRange
    apis_used := ["Gemini 2.5 Flash API", "Serper API"] }

/-- The simulation (fallback) dictionary of `create_content`
(lines 233-246), built from the parameters alone: it carries no `result` and
no record of any completed stage. -/
def simulationDict (p : RunParameters) : ContentDict :=
  { status := "simulation"
    message := "Multi-agent system working in simulation mode"
    result := none
    workflow :=
      ["Writer Agent creates content (Gemini 2.5 Flash + Serper)",
       "Editor Agent reviews and improves (Gemini 2.5 Flash)",
       "SEO Agent optimizes for search engines (Gemini 2.5 Flash + Serper)"]
    topic := p.topic
    audience := p.audience
    content_type := p.contentType
    word_count := p.wordCountRange
    apis_used := ["Gemini 2.5 Flash API", "Serper API"] }

/-- Method `ContentCreationTeam.create_content` (lines 145-246). `desc` is the
current `self.writing_task.description`. The method first overwrites the
description in place with its formatted rendering (line 166; a formatting
error there propagates to the caller, hence the outer `Option`), then runs
`crew.kickoff()` inside `try`: on success it returns the success dictionary
with the kickoff result, and on any collaborator exception the broad
`except` returns the simulation dictionary. The returned pair is
(dictionary, new stored description). -/
def create_content (desc : String) (p : RunParameters) (b : Behavior) :
    Option (ContentDict × String) :=
  match formatDesc desc p with
  | none => none
  | some newDesc =>
    if (kickoff b).failed then some (simulationDict p, newDesc)
    else some (successDict p (kickoff b).lastOutput, newDesc)

/-- Call of `create_content` invoked with only `topic`, using the declared Python
defaults `audience="general audience"`, `content_type="blog post"`,
`word_count="800-1000"` (line 145). -/
def create_content_topicOnly (desc : String) (topic : String) (b : Behavior) :
    Option (ContentDict × String) :=
  create_content desc ⟨topic, "general audience", "blog post", "800-1000"⟩ b

/-- The f-string template inside `show_simulation_content` of
`simple_streamlit_app.py` (lines 189-212; `show_simulation_mode` in
`new_streamlit_app.py` is byte-identical), with the four interpolated values
supplied in their string form (an f-string interpolates `str(value)`). -/
def simulated_content (topic audience content_type word_count : String) : String :=
  "\n# " ++ topic ++ "\n\n## Introduction\n\nThis is a simulated content piece about " ++ topic
    ++ ", designed for " ++ audience
    ++ ". \nThe content would be structured as a " ++ content_type
    ++ " with approximately " ++ word_count
    ++ " words.\n\n## Key Points\n\n- **Point 1**: AI is transforming healthcare through advanced diagnostics\n- **Point 2**: Personalized treatment plans are becoming more accessible  \n- **Point 3**: Remote monitoring and telemedicine are expanding care access\n- **Point 4**: Data-driven insights are improving patient outcomes\n\n## Conclusion\n\nThe future of healthcare is being shaped by artificial intelligence, offering \nunprecedented opportunities for " ++ audience
    ++ " to improve patient care and outcomes.\n\n---\n\n*This is simulated content. For real content generation, ensure your API keys are properly configured.*\n    "

/-- One fresh run as the frontend drives it (`simple_streamlit_app.py`
lines 113-176): a new `ContentCreationTeam` (so the stored description is the
initial template), `create_content`, and the dictionary returned to the
caller. -/
def runDict (p : RunParameters) (b : Behavior) : Option ContentDict :=
  (create_content initialWritingDesc p b).map (fun r => r.1)

/-- The word-count range string the frontends hand to `create_content`:
both build it from the integer slider value `w` (300-3000, step 100) as
`word_count=f"{word_count-200}-{word_count+200}"` (`simple_streamlit_app.py`
line 121, `new_streamlit_app.py` line 226; an f-string interpolates the
integers as decimal text). -/
def frontendRange (w : Int) : String :=
  Int.repr (w - 200) ++ "-" ++ Int.repr (w + 200)

/-- The `RunParameters` a frontend submission hands to `create_content`:
the three form strings as typed and the word-count range derived from the
slider integer `w`. -/
def frontendParams (topic audience content_type : String) (w : Int) : RunParameters :=
  ⟨topic, audience, content_type, frontendRange w⟩

/-- Function `show_simulation_content` of `simple_streamlit_app.py`
(lines 182-214; `show_simulation_mode` of `new_streamlit_app.py` is
identical): it renders the simulated-content template from its four
arguments. Every source call site (`simple_streamlit_app.py` lines 171 and
176, `new_streamlit_app.py` lines 243 and 303) passes the bare slider
integer as `word_count`, which the f-string interpolates as its decimal
text — not the range string that was handed to `create_content`. -/
def show_simulation_content (topic audience content_type : String) (word_count : Int) : String :=
  simulated_content topic audience content_type (Int.repr word_count)

/-- The payload a frontend submission ends up displaying
(`simple_streamlit_app.py` lines 113-176): `create_content` is called with
the slider-derived range string (line 121); the dictionary's `result` is
shown when `status == "success"` (lines 125-159), otherwise
`show_simulation_content` is rendered from the form strings and the bare
slider integer (lines 171 and 176). -/
def runPayload (topic audience content_type : String) (w : Int) (b : Behavior) :
    Option String :=
  (runDict (frontendParams topic audience content_type w) b).map (fun d =>
    if d.status = "success" then d.result.getD "" else
      show_simulation_content topic audience content_type w)

/-- A behavior on which every collaborator call raises. -/
def allFail : Behavior := ⟨fun _ => none, fun _ => none⟩

/-- A prefix test on character lists used by the substring check. -/
def startsWithChars : List Char → List Char → Bool
  | [], _ => true
  | _ :: _, [] => false
  | a :: as, b :: bs => a == b && startsWithChars as bs

/-- Naive substring search on character lists. -/
def hasSub (sub : List Char) : List Char → Bool
  | [] => sub.isEmpty
  | c :: cs => startsWithChars sub (c :: cs) || hasSub sub cs

/-- `containsSub s sub` holds when `sub` occurs contiguously inside `s`. -/
def containsSub (s sub : String) : Bool := hasSub sub.data s.data

/-- Parameters with a malformed word-count range (`"abc"`), used to refute
C2. -/
def c2BadParams : RunParameters := ⟨"T", "A", "blog post", "abc"⟩

/-- Parameters used to refute C3. -/
def c3Params : RunParameters := ⟨"T3", "A3", "article", "500-700"⟩

/-- A behavior on which every collaborator call succeeds, the n-th
completion call returning a text naming its index. -/
def allOk : Behavior := ⟨fun n => some ("draft " ++ Nat.repr n), fun _ => some "snippets"⟩

/-- The parameters of C5. -/
def c5Params : RunParameters := ⟨"T", "A", "blog post", "800-1000"⟩

/-- FallbackGenerator: the complete fallback observable of a frontend
submission — the simulation dictionary `create_content` returns for the
slider-derived parameters, plus the simulated-content document the frontend
renders from the form strings and the slider integer — as a total function
of the frontend inputs alone. -/
def fallbackResult (topic audience content_type : String) (w : Int) :
    ContentDict × String :=
  (simulationDict (frontendParams topic audience content_type w),
   show_simulation_content topic audience content_type w)

/-- Parameters of a first run, used to refute C6. -/
def c6FirstParams : RunParameters := ⟨"X", "A1", "article", "100-200"⟩

/-- Parameters of a second run on the same orchestrator. -/
def c6SecondParams : RunParameters := ⟨"Y", "A2", "essay", "300-400"⟩

/-- The `writing_task.description` stored after a first run with
`c6FirstParams`: line 166 overwrites the template in place with its
rendering. -/
def descAfterFirstRun : String := (formatDesc initialWritingDesc c6FirstParams).getD ""

/-- On the initial writing-task template, `str.format` always succeeds:
every replacement field names one of the four supplied keywords, and the
substituted values themselves are never rescanned. -/
theorem formatDesc_init_isSome (p : RunParameters) :
    (formatDesc initialWritingDesc p).isSome = true := rfl

/-- The dictionary a fresh run returns: the simulation dictionary when the
kickoff failed, the success dictionary carrying the kickoff's final output
otherwise. -/
theorem runDict_eq (p : RunParameters) (b : Behavior) :
    runDict p b = some (if (kickoff b).failed then simulationDict p
      else successDict p (kickoff b).lastOutput) := by
  obtain ⟨nd, hnd⟩ := Option.isSome_iff_exists.mp (formatDesc_init_isSome p)
  simp only [runDict, create_content, hnd]
  by_cases h : (kickoff b).failed <;> simp [h]

/-- C1: for every `RunParameters` and every behavior of the two
collaborators (each call either returning text or raising), a fresh run
returns a dictionary whose status is exactly `"success"` or `"simulation"`;
a collaborator exception at any stage is absorbed by the broad `except` and
never propagated to the caller. -/
theorem claim1_status_always_success_or_simulation (p : RunParameters) (b : Behavior) :
    ∃ d, runDict p b = some d ∧ (d.status = "success" ∨ d.status = "simulation") := by
  refine ⟨_, runDict_eq p b, ?_⟩
  by_cases h : (kickoff b).failed <;> simp [h, successDict, simulationDict]

/-- C2 is false of the code: with `wordCountRange = "abc"` and every
collaborator call failing, `create_content` does not fail with any
`InvalidParameters` error before collaborators are invoked — the search
collaborator is invoked (one search call is recorded) and the fallback
dictionary is produced. -/
theorem claim2_counterexample :
    runDict c2BadParams allFail = some (simulationDict c2BadParams) ∧
      (kickoff allFail).nSearch = 1 := by decide

/-- C2 amended: `create_content` performs no parameter validation at all.
For every `RunParameters` — malformed word-count range or empty fields
included — the run proceeds identically: collaborators are invoked and the
resulting status depends only on the collaborator behavior, with the
fallback produced on failure. -/
theorem claim2_amended_no_validation (p : RunParameters) (b : Behavior) :
    ∃ d, runDict p b = some d ∧
      d.status = (if (kickoff b).failed then "simulation" else "success") := by
  refine ⟨_, runDict_eq p b, ?_⟩
  by_cases h : (kickoff b).failed <;> simp [h, successDict, simulationDict]

/-- C9: on both the success and the simulation path, the returned dictionary
echoes the four input parameters back unchanged. -/
theorem claim9_params_echoed (p : RunParameters) (b : Behavior) :
    ∃ d, runDict p b = some d ∧ d.topic = p.topic ∧ d.audience = p.audience ∧
      d.content_type = p.contentType ∧ d.word_count = p.wordCountRange := by
  refine ⟨_, runDict_eq p b, ?_⟩
  by_cases h : (kickoff b).failed <;> simp [h, successDict, simulationDict]

/-- C10: invoking `create_content` with only a topic uses the declared
defaults `audience="general audience"`, `content_type="blog post"`,
`word_count="800-1000"`, and is identical to passing those three values
explicitly. -/
theorem claim10_defaults (desc topic : String) (b : Behavior) :
    create_content_topicOnly desc topic b =
      create_content desc ⟨topic, "general audience", "blog post", "800-1000"⟩ b := rfl

/-- C3 is false of the code as stated: the fallback dictionary does carry
status `"simulation"` and records no completed stage, but its `apis_used`
field is the two-element list naming both APIs, not the empty set. -/
theorem claim3_counterexample :
    runDict c3Params allFail = some (simulationDict c3Params) ∧
      (simulationDict c3Params).apis_used ≠ [] := by decide

/-- C3 amended: on the failure path the returned dictionary is exactly
`simulationDict p`, a value built from the parameters alone — status
`"simulation"`, no `result` and no record of completed stages — but with
`apis_used` equal to the constant list `["Gemini 2.5 Flash API",
"Serper API"]` rather than the empty set. -/
theorem claim3_amended_fallback_shape (p : RunParameters) (b : Behavior)
    (h : (kickoff b).failed = true) :
    runDict p b = some (simulationDict p) ∧
      (simulationDict p).status = "simulation" ∧
      (simulationDict p).result = none ∧
      (simulationDict p).apis_used = ["Gemini 2.5 Flash API", "Serper API"] := by
  refine ⟨?_, rfl, rfl, rfl⟩
  rw [runDict_eq]
  simp [h]

/-- Witness for the amended C3 at concrete inputs. -/
theorem claim3_amended_fallback_shape_witness :
    runDict c3Params allFail = some (simulationDict c3Params) ∧
      (simulationDict c3Params).status = "simulation" ∧
      (simulationDict c3Params).result = none ∧
      (simulationDict c3Params).apis_used = ["Gemini 2.5 Flash API", "Serper API"] :=
  claim3_amended_fallback_shape c3Params allFail (by decide)

/-- C4: if every completion call and every search call succeeds, a fresh run
returns the success dictionary, the stages completed are exactly
Writer, Editor, SEO in that order (their role names), and the payload is the
text returned by the third completion invocation (index 2): for any frontend
form inputs, the displayed payload is that third completion text. -/
theorem claim4_success_path (p : RunParameters) (b : Behavior) (t s : Nat → String)
    (hc : ∀ n, b.completion n = some (t n)) (hs : ∀ n, b.search n = some (s n)) :
    runDict p b = some (successDict p (t 2)) ∧
      (kickoff b).completed = ["Content Writer", "Content Editor", "SEO Specialist"] ∧
      (successDict p (t 2)).status = "success" ∧
      ∀ (topic audience content_type : String) (w : Int),
        runPayload topic audience content_type w b = some (t 2) := by
  have hk : kickoff b =
      ⟨3, 2, ["Content Writer", "Content Editor", "SEO Specialist"], t 2, false⟩ := by
    simp [kickoff, crewAgents, stepStage, writer_agent, editor_agent, seo_agent, hc, hs]
  have hd : ∀ q : RunParameters, runDict q b = some (successDict q (t 2)) := by
    intro q
    rw [runDict_eq, hk]
    simp
  refine ⟨hd p, by rw [hk], rfl, ?_⟩
  intro topic audience content_type w
  simp [runPayload, hd (frontendParams topic audience content_type w), successDict]

/-- Witness for C4 at concrete inputs. -/
theorem claim4_success_path_witness :
    runDict ⟨"W4", "X4", "Y4", "Z4"⟩ allOk =
        some (successDict ⟨"W4", "X4", "Y4", "Z4"⟩ "draft 2") ∧
      (kickoff allOk).completed = ["Content Writer", "Content Editor", "SEO Specialist"] ∧
      (successDict ⟨"W4", "X4", "Y4", "Z4"⟩ "draft 2").status = "success" ∧
      ∀ (topic audience content_type : String) (w : Int),
        runPayload topic audience content_type w allOk = some "draft 2" :=
  claim4_success_path ⟨"W4", "X4", "Y4", "Z4"⟩ allOk
    (fun n => "draft " ++ Nat.repr n) (fun _ => "snippets") (fun _ => rfl) (fun _ => rfl)

/-- C5 is false of the code: when `create_content` receives the claim's
parameters `{"T", "A", "blog post", "800-1000"}` and every collaborator call
fails, the returned result carries no payload string at all
(`result` is absent); the simulated-content document exists only in the
frontends, which hand the document the bare slider integer, never the range
string given to `create_content` — a slider submission with topic `"T"`,
audience `"A"`, content type `"blog post"` and slider value 1000 passes
`create_content` the range `"800-1200"`, and the fallback document it
displays contains neither `"800-1000"` nor even that range `"800-1200"`. -/
theorem claim5_counterexample :
    runDict c5Params allFail = some (simulationDict c5Params) ∧
      (simulationDict c5Params).result = none ∧
      frontendRange 1000 = "800-1200" ∧
      runPayload "T" "A" "blog post" 1000 allFail =
        some (show_simulation_content "T" "A" "blog post" 1000) ∧
      containsSub (show_simulation_content "T" "A" "blog post" 1000) "800-1000" = false ∧
      containsSub (show_simulation_content "T" "A" "blog post" 1000) "800-1200" = false := by
  decide

/-- C5 amended: for a frontend submission with topic `"T"`, audience `"A"`,
content type `"blog post"` and slider word count 1000 (so `create_content`
receives the range `"800-1200"`), with every collaborator call failing, the
run returns the simulation dictionary (status `"simulation"`, no
completed-stage record) and the payload the frontend displays is the
simulated-content document, which contains the substrings `"T"`, `"A"`,
`"blog post"` and the slider word count `"1000"` — not the word-count range
string handed to `create_content`. -/
theorem claim5_amended_fallback_payload :
    runDict (frontendParams "T" "A" "blog post" 1000) allFail =
        some (simulationDict (frontendParams "T" "A" "blog post" 1000)) ∧
      (simulationDict (frontendParams "T" "A" "blog post" 1000)).status = "simulation" ∧
      (simulationDict (frontendParams "T" "A" "blog post" 1000)).result = none ∧
      runPayload "T" "A" "blog post" 1000 allFail =
        some (show_simulation_content "T" "A" "blog post" 1000) ∧
      containsSub (show_simulation_content "T" "A" "blog post" 1000) "T" = true ∧
      containsSub (show_simulation_content "T" "A" "blog post" 1000) "A" = true ∧
      containsSub (show_simulation_content "T" "A" "blog post" 1000) "blog post" = true ∧
      containsSub (show_simulation_content "T" "A" "blog post" 1000) "1000" = true := by
  decide

/-- C7: the fallback generation is pure and never fails: whenever the
kickoff fails, the dictionary and the displayed payload of a frontend
submission equal `fallbackResult topic audience content_type w`, a total
function of the frontend inputs alone — so two submissions with identical
inputs (under any failing collaborator behaviors) yield identical payload
text, no external call is consulted, and the caller always receives a
result. -/
theorem claim7_fallback_pure (topic audience content_type : String) (w : Int)
    (b : Behavior) (h : (kickoff b).failed = true) :
    runDict (frontendParams topic audience content_type w) b =
        some (fallbackResult topic audience content_type w).1 ∧
      runPayload topic audience content_type w b =
        some (fallbackResult topic audience content_type w).2 := by
  have hd : runDict (frontendParams topic audience content_type w) b =
      some (simulationDict (frontendParams topic audience content_type w)) := by
    rw [runDict_eq]; simp [h]
  refine ⟨hd, ?_⟩
  simp [runPayload, hd, simulationDict, fallbackResult]

/-- Witness for C7 at concrete inputs. -/
theorem claim7_fallback_pure_witness :
    runDict (frontendParams "P7" "Q7" "guide" 700) allFail =
        some (fallbackResult "P7" "Q7" "guide" 700).1 ∧
      runPayload "P7" "Q7" "guide" 700 allFail =
        some (fallbackResult "P7" "Q7" "guide" 700).2 :=
  claim7_fallback_pure "P7" "Q7" "guide" 700 allFail (by decide)

/-- C6 is false of the code: the first run overwrites
`writing_task.description` in place with its rendering; the second run then
formats that already-rendered, placeholder-free string, which comes back
unchanged — so the second run's stage-1 instructions still carry the first
run's topic `"X"` and never mention the second run's topic `"Y"`, instead of
being rendered from the second run's parameters. -/
theorem claim6_counterexample :
    (create_content initialWritingDesc c6FirstParams allFail).map (fun r => r.2) =
        some descAfterFirstRun ∧
      (create_content descAfterFirstRun c6SecondParams allFail).map (fun r => r.2) =
        some descAfterFirstRun ∧
      formatDesc initialWritingDesc c6SecondParams ≠ some descAfterFirstRun ∧
      containsSub descAfterFirstRun "X" = true ∧
      containsSub descAfterFirstRun "Y" = false := by decide

/-- Format of a brace-free character list is the identity: no replacement
field is found, so every character is copied through. -/
theorem goFmt_braceFree (p : RunParameters) :
    ∀ (fuel : Nat) (l : List Char), l.length < fuel →
      (∀ c ∈ l, c ≠ lbrace ∧ c ≠ rbrace) → goFmt p fuel l = some l := by
  intro fuel
  induction fuel with
  | zero => intro l hlen _; omega
  | succ n ih =>
    intro l hlen hbf
    cases l with
    | nil => rfl
    | cons c cs =>
      have hc := hbf c (List.mem_cons_self c cs)
      have hrec := ih cs (by simpa using Nat.lt_of_succ_lt_succ hlen)
        (fun d hd => hbf d (List.mem_cons_of_mem c hd))
      simp [goFmt, hc.1, hc.2, hrec]

/-- C6 amended: the code mutates the stored instruction template in place.
Whatever description `d1` the first run leaves behind, if `d1` is brace-free
(as it is whenever the first run's parameter values contain no braces), a
second run's in-place format leaves it untouched: the second run's stage-1
instructions are `d1` itself — the first run's rendering — regardless of the
second run's parameters and collaborator behavior. -/
theorem claim6_amended_mutation_sticks (p1 p2 : RunParameters) (b : Behavior) (d1 : String)
    (h1 : formatDesc initialWritingDesc p1 = some d1)
    (h2 : ∀ c ∈ d1.data, c ≠ lbrace ∧ c ≠ rbrace) :
    (create_content d1 p2 b).map (fun r => r.2) = some d1 := by
  have hf : formatDesc d1 p2 = some d1 := by
    unfold formatDesc
    rw [goFmt_braceFree p2 _ _ (Nat.lt_succ_self _) h2]
    cases d1
    rfl
  simp only [create_content, hf]
  by_cases h : (kickoff b).failed <;> simp [h]

/-- Witness for the amended C6 at concrete inputs. -/
theorem claim6_amended_mutation_sticks_witness :
    (create_content descAfterFirstRun c6SecondParams allFail).map (fun r => r.2) =
      some descAfterFirstRun :=
  claim6_amended_mutation_sticks c6FirstParams c6SecondParams allFail descAfterFirstRun
    (by decide) (by decide)

/-- C8: the crew registry holds exactly the three agents in the fixed order
Writer, Editor, SEO; the Writer and SEO agents are granted the search tool
and the Editor agent is not; and in any execution the Editor stage never
invokes the search collaborator (its stage step leaves the search-call count
unchanged). -/
theorem claim8_registry :
    crewAgents = [writer_agent, editor_agent, seo_agent] ∧
      crewAgents.length = 3 ∧
      writer_agent.usesSearch = true ∧
      editor_agent.usesSearch = false ∧
      seo_agent.usesSearch = true ∧
      ∀ (b : Behavior) (t : Trace), (stepStage b t editor_agent).nSearch = t.nSearch := by
  refine ⟨rfl, rfl, rfl, rfl, rfl, ?_⟩
  intro b t
  by_cases h : t.failed
  · simp [stepStage, h]
  · simp only [stepStage, h, editor_agent, if_false, Bool.false_eq_true, if_neg]
    cases b.completion t.nComp <;> simp
